import Mathlib

/-!
# Verification of the AOS8→AOS10 AP migration tool

Shallow embedding of `src/aos8_aos10_tool.py`: the conversion-progress
tracker, the monitoring-cycle state update, the prepare-for-migration SSH
workflow, and the cleanup-and-restore workflow, together with the fleet
database lookups they use.

Conventions:
* Python strings are Lean `String`s; the Python `in` substring test is
  `strContains` (implemented over `List Char` so that it evaluates by
  kernel reduction).
* A remote shell session is a `Device`, a function from the full history
  of commands sent on the session to the captured response text of the
  last command.  `send` appends one command and reads the device.
* Python dictionaries are association lists with first-occurrence lookup;
  every insertion in the source happens only when the key is absent, so
  keys stay unique.
* Transport failures (a failed `ssh_to_mm` or an exception raised during
  a session) are collapsed into an `Option Device` per host: in the
  source both paths record the host as failed and skip it, and no
  per-host success counter is incremented after a partial step.
-/

namespace AOSTool

/-! ## String containment (Python `needle in haystack`) -/

/-- `chStartsWith needle hay`: `needle` is a prefix of `hay` (on char lists). -/
def chStartsWith : List Char → List Char → Bool
  | [], _ => true
  | _ :: _, [] => false
  | a :: as, b :: bs => a == b && chStartsWith as bs

/-- `chContains needle hay`: `needle` occurs as a contiguous sublist of `hay`. -/
def chContains (needle : List Char) : List Char → Bool
  | [] => chStartsWith needle []
  | c :: cs => chStartsWith needle (c :: cs) || chContains needle cs

/-- Python's substring containment `needle in hay`. -/
def strContains (hay needle : String) : Bool :=
  chContains needle.data hay.data

/-! ## Conversion progress tracker (`track_conversion_progress`) -/

/-- The summary dictionary produced by `parse_ap_convert_status`. -/
structure ConversionSummary where
  status : String
  mode : String
  current_converting : Nat
  max_converting : Nat
  start_time : String
  current_status : String
  ap_groups : List String
deriving DecidableEq, Repr

/-- One controller's entry in the tracker dictionary (`all_time_data[key]`). -/
structure ControllerData where
  conversion_started : Bool
  start_time : Option String
  ap_groups : List String
  peak_converting : Nat
  total_processed_estimate : Nat
  last_current_converting : Nat
deriving DecidableEq, Repr

/-- The fresh entry created when a controller is first seen by the tracker. -/
def initControllerData : ControllerData :=
  { conversion_started := false
    start_time := none
    ap_groups := []
    peak_converting := 0
    total_processed_estimate := 0
    last_current_converting := 0 }

/-- The per-cycle update `track_conversion_progress` applies to one
controller's entry (source lines 340–362): mark the start, track the peak,
add the drop in the currently-converting counter to the processed estimate,
and remember the counter for the next cycle. -/
def track_controller_data (s : ConversionSummary) (d : ControllerData) : ControllerData :=
  let cur := s.current_converting
  let d1 :=
    if s.status = "Active" ∧ d.conversion_started = false then
      { d with conversion_started := true
               start_time := some s.start_time
               ap_groups := s.ap_groups }
    else d
  let d2 := if d1.peak_converting < cur then { d1 with peak_converting := cur } else d1
  let d3 :=
    if cur < d2.last_current_converting then
      { d2 with total_processed_estimate :=
          d2.total_processed_estimate + (d2.last_current_converting - cur) }
    else d2
  { d3 with last_current_converting := cur }

/-- First-occurrence association-list lookup (Python `dict[k]` / `k in dict`). -/
def alookup {α : Type} (k : String) : List (String × α) → Option α
  | [] => none
  | (k', v) :: rest => if k' = k then some v else alookup k rest

/-- Update the entry at key `k` in place, if present (Python field mutation). -/
def amod {α : Type} (k : String) (f : α → α) : List (String × α) → List (String × α)
  | [] => []
  | (k', v) :: rest => if k' = k then (k', f v) :: rest else (k', v) :: amod k f rest

/-- `track_conversion_progress(controller_name, summary, all_time_data)`:
insert a fresh entry when the controller is unknown, then apply the
per-cycle update; returns the updated dictionary and the entry returned to
the caller.  (In the source this dictionary is the same object as the AP
registry; a name collision between a controller and an AP raises `KeyError`
and ends the monitoring run, so the two key families are modelled as
disjoint maps.) -/
def track_conversion_progress (name : String) (s : ConversionSummary)
    (m : List (String × ControllerData)) :
    List (String × ControllerData) × ControllerData :=
  let m1 := match alookup name m with
    | none => m ++ [(name, initControllerData)]
    | some _ => m
  let m2 := amod name (fun d => track_controller_data s d) m1
  (m2, (alookup name m2).getD initControllerData)

/-! ## Monitoring cycle (`monitor_ap_conversion`)

Time is modelled as a `Nat` timestamp supplied to each cycle
(`datetime.now()` is monotone across cycles). -/

/-- One converting AP as produced by `parse_ap_convert_status`. -/
structure APInfo where
  name : String
  mac : String
  status : String
  progress : String
deriving DecidableEq, Repr

/-- One AP's entry in the `all_time_aps` registry. -/
structure APRecord where
  first_seen : Nat
  last_seen : Nat
  controller : String
  mac : String
  status_history : List (Nat × String × String)
  completed_time : Option Nat
deriving DecidableEq, Repr

/-- What one cycle observes from one controller: `online = false` models a
failed status fetch (the controller is shown offline for this cycle only and
contributes nothing). -/
structure CtrlInput where
  name : String
  online : Bool
  aps : List APInfo
  summary : ConversionSummary
deriving DecidableEq, Repr

/-- The monitoring loop's mutable state between cycles. -/
structure MonitorState where
  all_time_aps : List (String × APRecord)
  ctrl_data : List (String × ControllerData)
  completed_aps : List String
  previous_converting : List String
deriving DecidableEq, Repr

/-- The state at the start of a monitoring run (all registries empty). -/
def initMonitorState : MonitorState :=
  { all_time_aps := [], ctrl_data := [], completed_aps := [], previous_converting := [] }

/-- Python `set.add`: append only when absent. -/
def sinsert {α : Type} [DecidableEq α] (x : α) (s : List α) : List α :=
  if x ∈ s then s else s ++ [x]

/-- Register one converting AP (source lines 459–474): create the entry on
first sight with `first_seen = now`, then unconditionally update `last_seen`
and append to the status history. -/
def registerAP (now : Nat) (ctrl : String) (ap : APInfo)
    (m : List (String × APRecord)) : List (String × APRecord) :=
  let m1 := match alookup ap.name m with
    | none => m ++ [(ap.name,
        { first_seen := now
          last_seen := now
          controller := ctrl
          mac := ap.mac
          status_history := []
          completed_time := none })]
    | some _ => m
  amod ap.name (fun r =>
    { r with last_seen := now
             status_history := r.status_history ++ [(now, ap.status, ap.progress)] }) m1

/-- Accumulator threaded through one cycle's per-controller loop. -/
structure CycleAcc where
  aps : List (String × APRecord)
  ctrls : List (String × ControllerData)
  cur : List String
deriving Repr

/-- Process one controller's converting APs: add each name to the
currently-converting set and register it. -/
def processAPs (now : Nat) (ctrl : String) (apl : List APInfo) (acc : CycleAcc) : CycleAcc :=
  apl.foldl (fun a ap =>
    { a with cur := sinsert ap.name a.cur
             aps := registerAP now ctrl ap a.aps }) acc

/-- The per-controller body of one cycle (source lines 429–485): an online
controller first runs the progress tracker, then registers its APs; an
offline controller contributes nothing. -/
def processData (now : Nat) (data : List CtrlInput) (acc : CycleAcc) : CycleAcc :=
  data.foldl (fun a c =>
    if c.online then
      processAPs now c.name c.aps
        { a with ctrls := (track_conversion_progress c.name c.summary a.ctrls).1 }
    else a) acc

/-- Stamp the completion time of one AP, if it is registered
(source lines 492–493). -/
def stampCompleted (now : Nat) (n : String)
    (m : List (String × APRecord)) : List (String × APRecord) :=
  amod n (fun r => { r with completed_time := some now }) m

/-- One full monitoring cycle (source lines 406–496): collect the current
converting set, then reclassify every AP of the previous cycle that is
absent now as completed, stamping it with the current time. -/
def monitorCycle (now : Nat) (data : List CtrlInput) (st : MonitorState) : MonitorState :=
  let acc := processData now data
    { aps := st.all_time_aps, ctrls := st.ctrl_data, cur := [] }
  let newly := st.previous_converting.filter (fun n => ¬ n ∈ acc.cur)
  let completed := newly.foldl (fun s n => sinsert n s) st.completed_aps
  let m2 := newly.foldl (fun mm n => stampCompleted now n mm) acc.aps
  { all_time_aps := m2
    ctrl_data := acc.ctrls
    completed_aps := completed
    previous_converting := acc.cur }

/-- The AP names a cycle's input reports as currently converting
(online controllers only); used to state properties of `monitorCycle`. -/
def cycleNames (data : List CtrlInput) : List String :=
  (data.filter (fun c => c.online)).flatMap (fun c => c.aps.map (fun ap => ap.name))

/-! ## Interactive session driver -/

/-- A remote shell: the captured response is a function of the whole
command history sent on the session so far (the device is stateful, and
`send_ssh_command` returns one captured text per command). -/
def Device : Type := List String → String

/-- `send_ssh_command`: append the command to the session history and read
the device's response to it. -/
def send (dev : Device) (tr : List String) (cmd : String) : List String × String :=
  let tr2 := tr ++ [cmd]
  (tr2, dev tr2)

/-! ## Prepare-for-migration workflow (`prep_migration_ssh`) -/

/-- The accepted LC-cluster profile-context markers (source lines 1655–1660);
entry into the profile context is confirmed by substring containment of any
of them, case-sensitively. -/
def contextMarkers : List String :=
  ["Classic Controller Cluster Profile",
   "(lc-cluster-profile)",
   "(LC-CLUSTER-PROFILE)",
   "lc-cluster-profile"]

/-- Response text confirms LC-cluster profile context. -/
def hasContextMarker (out : String) : Bool :=
  contextMarkers.any (fun m => strContains out m)

/-- The profile-entry command for a cluster name. -/
def profileCmd (cn : String) : String := "lc-cluster group-profile " ++ cn

/-- Characters accepted by the `[^\s,]+` group of the
`Profile Name = ([^\s,]+)` pattern. -/
def isTokChar (c : Char) : Bool :=
  !(c == ' ' || c == ',' || c == '\t' || c == '\n' || c == '\r' || c == '\x0b' || c == '\x0c')

/-- `re.search` for `pat` followed by a non-empty `[^\s,]+` token: scan left
to right; at each position where `pat` matches and at least one token
character follows, return that token, otherwise keep scanning. -/
def findTokenAfter (pat : List Char) : List Char → Option (List Char)
  | [] => none
  | c :: cs =>
    if chStartsWith pat (c :: cs) then
      let tok := ((c :: cs).drop pat.length).takeWhile isTokChar
      if tok.isEmpty then findTokenAfter pat cs else some tok
    else findTokenAfter pat cs

/-- `re.search(r"Profile Name = ([^\s,]+)", output)` (source line 1679). -/
def extractProfileName (s : String) : Option String :=
  (findTokenAfter "Profile Name = ".data s.data).map (fun cs => String.mk cs)

/-- The operator's answers consumed by the prepare workflow after the final
target confirmation: the fallback-menu choice, the answer to "use found
cluster?", and the alternate name typed for choice 2. -/
structure PrepInput where
  nodepath : String
  cluster : String
  choice : String
  useFound : String
  typedName : String
deriving DecidableEq, Repr

/-- Outcome of one prepare run: the commands sent on the session, and the
`prep_migration_target` recorded on success (`(nodepath, cluster_name)`),
`none` when the run raised before the target was stored. -/
structure PrepResult where
  trace : List String
  target : Option (String × String)
deriving DecidableEq, Repr

/-- The tail of `prep_migration_ssh` after the profile-context check
(source lines 1722–1752): raise if context was never confirmed, otherwise
disable load balancing, disable redundancy, exit both contexts, save, and
record the migration target with the cluster name now in `cluster_name`. -/
def finishPrep (dev : Device) (tr : List String) (np cn : String) (inCtx : Bool) : PrepResult :=
  if inCtx = false then { trace := tr, target := none }
  else
    let u1 := (send dev tr "no active-ap-lb").1
    let u2 := (send dev u1 "no redundancy").1
    let u3 := (send dev u2 "exit").1
    let u4 := (send dev u3 "exit").1
    let u5 := (send dev u4 "write memory").1
    { trace := u5, target := some (np, cn) }

/-- The SSH body of `prep_migration_ssh` (source lines 1641–1752), starting
after the operator confirmed the `(nodepath, cluster)` target: switch node,
enter config mode, enter the profile; if the response carries an error
marker or no context marker, run the operator fallback (list-and-extract,
type-a-name, or abort); then apply the disable steps and record the target.
The `in_cluster_context` flag is only ever set, never reset, exactly as in
the source. -/
def prep_migration_ssh (dev : Device) (inp : PrepInput) : PrepResult :=
  let t1 := (send dev [] ("change-config-node " ++ inp.nodepath)).1
  let t2 := (send dev t1 "configure terminal").1
  let s3 := send dev t2 (profileCmd inp.cluster)
  let t3 := s3.1
  let out := s3.2
  let inCtx := hasContextMarker out
  if strContains out "Error:" || strContains out "Invalid" || !inCtx then
    if inp.choice = "1" then
      let t4 := (send dev t3 "exit").1
      let s5 := send dev t4 "show lc-cluster group-membership"
      match extractProfileName s5.2 with
      | some found =>
        if inp.useFound = "y" then
          let t6 := (send dev s5.1 "configure terminal").1
          let s7 := send dev t6 (profileCmd found)
          finishPrep dev s7.1 inp.nodepath found (inCtx || hasContextMarker s7.2)
        else { trace := s5.1, target := none }
      | none => { trace := s5.1, target := none }
    else if inp.choice = "2" then
      let s4 := send dev t3 (profileCmd inp.typedName)
      finishPrep dev s4.1 inp.nodepath inp.typedName (inCtx || hasContextMarker s4.2)
    else { trace := t3, target := none }
  else
    finishPrep dev t3 inp.nodepath inp.cluster inCtx

/-! ## Fleet database (`aruba_migration.db`) -/

/-- A row of the `controllers` table. -/
structure ControllerRow where
  id : Nat
  ip_address : String
  name : String
  nodepath : String
deriving DecidableEq, Repr

/-- A row of the `lc_clusters` table. -/
structure LcClusterRow where
  controller_id : Nat
  cluster_name : String
deriving DecidableEq, Repr

/-- A row of the `ap_groups` table. -/
structure APGroupRow where
  controller_id : Nat
  name : String
deriving DecidableEq, Repr

/-- The persisted discovery data the workflows read.  (Strings are never
NULL in the model, so the source's `IS NOT NULL` filters are vacuous.) -/
structure MigrationDB where
  controllers : List ControllerRow
  lc_clusters : List LcClusterRow
  ap_groups : List APGroupRow
deriving Repr

/-- SQL `DISTINCT`: keep the first occurrence of each row. -/
def distinctRows {α : Type} [DecidableEq α] (l : List α) : List α :=
  l.foldl (fun acc x => if x ∈ acc then acc else acc ++ [x]) []

/-- `get_all_clusters_with_nodepaths` (source lines 1108–1124): the distinct
`(cluster_name, nodepath)` pairs of the join of `lc_clusters` with
`controllers`, excluding `'Unknown'` cluster names. -/
def get_all_clusters_with_nodepaths (db : MigrationDB) : List (String × String) :=
  distinctRows
    ((db.lc_clusters.filter (fun lc => lc.cluster_name ≠ "Unknown")).flatMap
      (fun lc =>
        (db.controllers.filter (fun c => c.id = lc.controller_id)).map
          (fun c => (lc.cluster_name, c.nodepath))))

/-- `get_all_controllers`: every row of the `controllers` table. -/
def get_all_controllers (db : MigrationDB) : List ControllerRow :=
  db.controllers

/-- `get_controllers_by_cluster`: the controllers whose id appears in an
`lc_clusters` row with the given cluster name. -/
def get_controllers_by_cluster (db : MigrationDB) (cn : String) : List ControllerRow :=
  let ids := (db.lc_clusters.filter (fun lc => lc.cluster_name = cn)).map
    (fun lc => lc.controller_id)
  db.controllers.filter (fun c => c.id ∈ ids)

/-- `get_ap_groups_for_controller`: the AP-group names stored for one
controller id. -/
def get_ap_groups_for_controller (db : MigrationDB) (cid : Nat) : List String :=
  (db.ap_groups.filter (fun g => g.controller_id = cid)).map (fun g => g.name)

/-! ## Cleanup-and-restore workflow (`cleanup_ap_convert`) -/

/-- The fixed confirmation phrase recognized by containment. -/
def confirmPrompt : String := "Do you want to proceed with the operation? [y/n]:"

/-- Phase 1 on one connected host (source lines 1838–1863): send
`ap convert clear-all`, answer its confirmation prompt with one `y` if — and
only if — the captured text contains the phrase, then do the same for
`ap convert cancel`.  Returns the commands sent and the per-host outcome,
which is success whether or not any prompt appeared. -/
def phase1Host (dev : Device) : List String × Bool :=
  let s1 := send dev [] "ap convert clear-all"
  let t2 := if strContains s1.2 confirmPrompt then (send dev s1.1 "y").1 else s1.1
  let s3 := send dev t2 "ap convert cancel"
  let t4 := if strContains s3.2 confirmPrompt then (send dev s3.1 "y").1 else s3.1
  (t4, true)

/-- The fixed command block Phase 2 sends for one restoration target
(source lines 1916–1977); no response inspection alters control flow there,
so the commands are a function of the target alone. -/
def phase2ClusterCmds (cn np : String) : List String :=
  ["change-config-node " ++ np, "configure terminal", profileCmd cn,
   "redundancy", "active-ap-lb", "exit", "exit", "write memory"]

/-- All commands Phase 2 sends to the conductor: the per-target block for
each restoration target, then the final root-level save (source line 1983). -/
def phase2Trace (clusters : List (String × String)) : List String :=
  (clusters.flatMap (fun p => phase2ClusterCmds p.1 p.2)) ++ ["write memory"]

/-- The global selection state `cleanup_ap_convert` reads and clears:
`selected_ap_groups` and `prep_migration_target` (`(nodepath, cluster)`). -/
structure CleanupState where
  selected_ap_groups : List String
  prep_migration_target : Option (String × String)
deriving DecidableEq, Repr

/-- The per-host and conductor environment of one cleanup run.  `hostDev ip
= none` models a host whose connection failed or whose session raised: in
both cases the source records the host as failed and moves on. -/
structure CleanupEnv where
  hostDev : String → Option Device
  mmConnects : Bool
  mmDev : Device

/-- Observable outcome of one cleanup run.  `restorationTargets` is the
Phase 2 `clusters_info` list (`none` when the run returned before Phase 2);
`fullRestoreWarning` records the explicit no-target warning printed at
source lines 1805–1807; `retVal` is the Python return value. -/
structure CleanupResult where
  successCount : Nat
  total : Nat
  failedControllers : List String
  restorationTargets : Option (List (String × String))
  fullRestoreWarning : Bool
  mmTrace : List String
  state' : CleanupState
  retVal : Bool

/-- One iteration of the Phase 1 loop: a host that fails to connect (or
whose session raises) is appended to the failed list; a connected host runs
`phase1Host` and is counted on success. -/
def phase1Step (env : CleanupEnv) (acc : Nat × List String) (c : ControllerRow) :
    Nat × List String :=
  match env.hostDev c.ip_address with
  | none => (acc.1, acc.2 ++ [c.name])
  | some dev => (if (phase1Host dev).2 then acc.1 + 1 else acc.1, acc.2)

/-- `cleanup_ap_convert` (source lines 1773–2038).  Phase 1 runs
`phase1Host` on every controller, counting successes and collecting failed
names; Phase 2 restores either the recorded migration target or every
discovered `(cluster, nodepath)` pair; the selection state is cleared at
the end iff at least one Phase 1 cleanup succeeded. -/
def cleanup_ap_convert (db : MigrationDB) (env : CleanupEnv) (confirm : Bool)
    (st : CleanupState) : CleanupResult :=
  let controllers := get_all_controllers db
  if controllers.isEmpty then
    { successCount := 0, total := 0, failedControllers := []
      restorationTargets := none, fullRestoreWarning := false
      mmTrace := [], state' := st, retVal := false }
  else
    let warn := st.prep_migration_target.isNone
    if confirm = false then
      { successCount := 0, total := 0, failedControllers := []
        restorationTargets := none, fullRestoreWarning := warn
        mmTrace := [], state' := st, retVal := false }
    else
      let p1 := controllers.foldl (phase1Step env) (0, [])
      let success_count := p1.1
      let failed := p1.2
      let clusters_info := match st.prep_migration_target with
        | some (np, cn) => [(cn, np)]
        | none => get_all_clusters_with_nodepaths db
      let mmTrace :=
        if clusters_info.isEmpty then []
        else if env.mmConnects = false then []
        else phase2Trace clusters_info
      let st2 := if 0 < success_count then
          { selected_ap_groups := [], prep_migration_target := none }
        else st
      { successCount := success_count
        total := controllers.length
        failedControllers := failed
        restorationTargets := some clusters_info
        fullRestoreWarning := warn
        mmTrace := mmTrace
        state' := st2
        retVal := decide (0 < success_count) }

/-! ## AP-convert init workflow (`execute_ap_convert_init`) -/

/-- The fixed activation command (source line 1382). -/
def initCommand : String :=
  "ap convert active specific-aps activate max-downloads 20 no-pre-validation"

/-- Per-host success of the init workflow (source lines 1396–1409): the
response to the activation command must contain both `WARNING:` and the
confirmation phrase; only then is `y` sent and the host counted. -/
def initHostSuccess (dev : Device) : Bool :=
  let o := dev [initCommand]
  strContains o "WARNING:" && strContains o confirmPrompt

/-- Observable outcome of one init run; `retVal` is the Python return value
and `(successCount, total)` is the concluding summary line (source line
1420), which names no failed hosts. -/
structure InitResult where
  successCount : Nat
  total : Nat
  retVal : Bool
deriving DecidableEq, Repr

/-- `execute_ap_convert_init` (source lines 1368–1421): run the activation
command on every controller of the selected cluster, skipping hosts that do
not connect, and return `success_count > 0`. -/
def execute_ap_convert_init (selected : Option String) (db : MigrationDB)
    (env : String → Option Device) : InitResult :=
  match selected with
  | none => { successCount := 0, total := 0, retVal := false }
  | some cn =>
    let cs := get_controllers_by_cluster db cn
    if cs.isEmpty then { successCount := 0, total := 0, retVal := false }
    else
      let k := cs.foldl (fun acc c =>
        match env c.ip_address with
        | none => acc
        | some dev => if initHostSuccess dev then acc + 1 else acc) 0
      { successCount := k, total := cs.length, retVal := decide (0 < k) }

/-- The `(successCount, total, failedHostNames)` summary the specification
says each workflow returns, stated from the spec's words for the init
workflow so it can be compared with what the source actually returns. -/
def initSpecSummary (selected : Option String) (db : MigrationDB)
    (env : String → Option Device) : Nat × Nat × List String :=
  match selected with
  | none => (0, 0, [])
  | some cn =>
    let cs := get_controllers_by_cluster db cn
    let ok : ControllerRow → Bool := fun c =>
      match env c.ip_address with
      | none => false
      | some dev => initHostSuccess dev
    ((cs.filter ok).length, cs.length, (cs.filter (fun c => !ok c)).map (fun c => c.name))

/-! ## AP-group add workflow (`select_and_add_ap_group`) and cluster selection -/

/-- The operator's inputs to one add run: the 1-based index into the
offered list and the answer to the confirmation question. -/
structure AddInput where
  selection : Nat
  confirm : Bool
deriving DecidableEq, Repr

/-- Observable outcome of one add run: `offered` is the displayed list of
not-yet-selected groups, `groups'` the updated `selected_ap_groups`, and
`retVal` the Python return value. -/
structure AddResult where
  successCount : Nat
  total : Nat
  offered : List String
  groups' : List String
  retVal : Bool
deriving DecidableEq, Repr

/-- String order used by Python `sorted` (both compare lexicographically by
code point). -/
def strLe (a b : String) : Bool := decide (a ≤ b)

/-- The groups offered for selection (source lines 1437–1449): the union of
every cluster controller's stored AP groups, sorted, minus the groups
already selected. -/
def availableGroups (db : MigrationDB) (cs : List ControllerRow)
    (groups : List String) : List String :=
  let all := cs.foldl (fun acc c =>
    (get_ap_groups_for_controller db c.id).foldl (fun a g => sinsert g a) acc) []
  (all.mergeSort strLe).filter (fun g => ¬ g ∈ groups)

/-- `select_and_add_ap_group` (source lines 1423–1546): offer the not-yet-
selected groups, run `ap convert add ap-group <g>` on every cluster
controller counting hosts whose response carries no `Error`/`Invalid`
marker, and append the group to `selected_ap_groups` iff at least one host
succeeded. -/
def select_and_add_ap_group (selected : Option String) (db : MigrationDB)
    (env : String → Option Device) (groups : List String) (inp : AddInput) : AddResult :=
  match selected with
  | none => { successCount := 0, total := 0, offered := [], groups' := groups, retVal := false }
  | some cn =>
    let cs := get_controllers_by_cluster db cn
    if cs.isEmpty then
      { successCount := 0, total := 0, offered := [], groups' := groups, retVal := false }
    else
      let avail := availableGroups db cs groups
      if avail.isEmpty then
        { successCount := 0, total := 0, offered := [], groups' := groups, retVal := false }
      else if inp.selection = 0 then
        { successCount := 0, total := 0, offered := avail, groups' := groups, retVal := false }
      else
        match avail[inp.selection - 1]? with
        | none =>
          { successCount := 0, total := 0, offered := avail, groups' := groups, retVal := false }
        | some g =>
          if inp.confirm = false then
            { successCount := 0, total := 0, offered := avail, groups' := groups
              retVal := false }
          else
            let cmd := "ap convert add ap-group " ++ g
            let k := cs.foldl (fun acc c =>
              match env c.ip_address with
              | none => acc
              | some dev =>
                let o := dev [cmd]
                if strContains o "Error" || strContains o "Invalid" then acc else acc + 1) 0
            { successCount := k
              total := cs.length
              offered := avail
              groups' := if 0 < k then groups ++ [g] else groups
              retVal := decide (0 < k) }

/-- The update `select_cluster` applies to `selected_ap_groups` (source
lines 1347–1353): the list is reset to empty exactly when the newly chosen
cluster differs from the current one. -/
def select_cluster_update (old : Option String) (newC : String)
    (groups : List String) : List String :=
  if old ≠ some newC then [] else groups

/-! ## Concrete instances used to evaluate the model -/

/-- A remote on which entering profile `c1` answers with the context
marker, and every other command answers with a bare prompt. -/
def prepDevOk : Device := fun tr =>
  if tr.getLast? = some (profileCmd "c1") then "(lc-cluster-profile) #" else "#"

/-- A direct, fallback-free prepare run against `prepDevOk`. -/
def prepInputOk : PrepInput :=
  { nodepath := "/md/host1", cluster := "c1", choice := "3", useFound := "n", typedName := "" }

/-- A remote whose answer to entering profile `orig` carries both a context
marker and an error marker; every other command answers with a bare
prompt. -/
def prepDevBug : Device := fun tr =>
  if tr.getLast? = some (profileCmd "orig") then "(lc-cluster-profile) Error: profile busy"
  else "#"

/-- A prepare run against `prepDevBug` in which the operator takes fallback
choice 2 and types the alternate name `other`. -/
def prepInputBug : PrepInput :=
  { nodepath := "/md", cluster := "orig", choice := "2", useFound := "n", typedName := "other" }

/-- A remote that answers every command with the confirmation prompt. -/
def devPrompt : Device := fun _ => "Do you want to proceed with the operation? [y/n]:"

/-- A remote that answers every command with a bare prompt. -/
def plainDev : Device := fun _ => "#"

/-- A remote whose every answer carries the warning and confirmation
phrases the init workflow requires. -/
def warnDev : Device := fun _ =>
  "WARNING: All APs will be converted. Do you want to proceed with the operation? [y/n]:"

/-- A one-controller fleet with one cluster membership and one AP group. -/
def dbOne : MigrationDB :=
  { controllers := [{ id := 1, ip_address := "10.0.0.1", name := "MC1", nodepath := "/md/1" }]
    lc_clusters := [{ controller_id := 1, cluster_name := "clusterA" }]
    ap_groups := [{ controller_id := 1, name := "grp1" }] }

/-- A two-controller fleet sharing cluster `c1`. -/
def dbTwo : MigrationDB :=
  { controllers :=
      [{ id := 1, ip_address := "10.0.0.1", name := "host1", nodepath := "/md" },
       { id := 2, ip_address := "10.0.0.2", name := "host2", nodepath := "/md" }]
    lc_clusters :=
      [{ controller_id := 1, cluster_name := "c1" },
       { controller_id := 2, cluster_name := "c1" }]
    ap_groups := [] }

/-- Every host reachable and answering with the confirmation prompt. -/
def envOne : CleanupEnv :=
  { hostDev := fun _ => some devPrompt, mmConnects := true, mmDev := plainDev }

/-- Init environment in which host 2 cannot be reached. -/
def envInitA : String → Option Device :=
  fun ip => if ip = "10.0.0.2" then none else some warnDev

/-- Init environment in which every host succeeds. -/
def envInitB : String → Option Device := fun _ => some warnDev

/-- Selection state holding one pending AP group and a recorded migration
target. -/
def cleanupStExample : CleanupState :=
  { selected_ap_groups := ["g1"], prep_migration_target := some ("/md/1", "clusterA") }

/-- An AP record first seen at time 1. -/
def apRecSeen : APRecord :=
  { first_seen := 1, last_seen := 1, controller := "MC1", mac := "aa:bb:cc:dd:ee:ff"
    status_history := [(1, "IN_PROGRESS", "")], completed_time := none }

/-- Monitoring state after a cycle in which `ap1` was converting. -/
def monStExample : MonitorState :=
  { all_time_aps := [("ap1", apRecSeen)], ctrl_data := [], completed_aps := []
    previous_converting := ["ap1"] }

/-- A conversion summary reporting one active conversion. -/
def sumExample : ConversionSummary :=
  { status := "Active", mode := "one-shot", current_converting := 1, max_converting := 5
    start_time := "t0", current_status := "Running", ap_groups := ["grp1"] }

/-- A cycle in which controller `MC1` reports `ap1` converting again. -/
def ctrlInputReappear : CtrlInput :=
  { name := "MC1", online := true
    aps := [{ name := "ap1", mac := "aa:bb:cc:dd:ee:ff", status := "IN_PROGRESS", progress := "" }]
    summary := sumExample }

/-- Monitoring state in which `ap1` has already been marked completed. -/
def monStDone : MonitorState :=
  { all_time_aps := [("ap1", apRecSeen)], ctrl_data := [], completed_aps := ["ap1"]
    previous_converting := [] }

/-! ## Association-list lemmas -/

theorem alookup_mem {α : Type} {n : String} {r : α} :
    ∀ {m : List (String × α)}, alookup n m = some r → (n, r) ∈ m := by
  intro m
  induction m with
  | nil => intro h; simp [alookup] at h
  | cons p rest ih =>
    obtain ⟨k', v⟩ := p
    intro h
    rw [alookup] at h
    by_cases heq : k' = n
    · rw [if_pos heq] at h
      cases h
      rw [heq]
      exact List.mem_cons_self _ _
    · rw [if_neg heq] at h
      exact List.mem_cons_of_mem _ (ih h)

theorem alookup_amod_self {α : Type} (k : String) (f : α → α) :
    ∀ m : List (String × α), alookup k (amod k f m) = (alookup k m).map f := by
  intro m
  induction m with
  | nil => simp [alookup, amod]
  | cons p rest ih =>
    obtain ⟨k', v⟩ := p
    rw [amod]
    by_cases heq : k' = k
    · rw [if_pos heq, alookup, if_pos heq, alookup, if_pos heq]
      rfl
    · rw [if_neg heq, alookup, if_neg heq, alookup, if_neg heq]
      exact ih

theorem alookup_amod_other {α : Type} {k n : String} (f : α → α) (hne : k ≠ n) :
    ∀ m : List (String × α), alookup n (amod k f m) = alookup n m := by
  intro m
  induction m with
  | nil => simp [amod]
  | cons p rest ih =>
    obtain ⟨k', v⟩ := p
    rw [amod]
    by_cases heq : k' = k
    · have hn : k' ≠ n := fun h => hne (heq.symm.trans h)
      rw [if_pos heq, alookup, if_neg hn, alookup, if_neg hn]
    · rw [if_neg heq, alookup, alookup]
      by_cases heq2 : k' = n
      · rw [if_pos heq2, if_pos heq2]
      · rw [if_neg heq2, if_neg heq2]
        exact ih

theorem alookup_append_none {α : Type} {n : String} {m l : List (String × α)}
    (h : alookup n m = none) : alookup n (m ++ l) = alookup n l := by
  induction m with
  | nil => simp
  | cons p rest ih =>
    rw [alookup] at h
    rw [List.cons_append, alookup]
    split
    · rename_i heq
      rw [if_pos heq] at h
      cases h
    · rename_i hne
      rw [if_neg hne] at h
      exact ih h

theorem alookup_append_some {α : Type} {n : String} {v : α} {m : List (String × α)}
    (l : List (String × α)) (h : alookup n m = some v) : alookup n (m ++ l) = some v := by
  induction m with
  | nil => simp [alookup] at h
  | cons p rest ih =>
    rw [alookup] at h
    rw [List.cons_append, alookup]
    split
    · rename_i heq
      rw [if_pos heq] at h
      exact h
    · rename_i hne
      rw [if_neg hne] at h
      exact ih h

theorem alookup_isSome_amod {α : Type} (k n : String) (f : α → α)
    (m : List (String × α)) :
    (alookup n (amod k f m)).isSome = (alookup n m).isSome := by
  by_cases h : k = n
  · subst h
    rw [alookup_amod_self]
    cases alookup k m <;> simp
  · rw [alookup_amod_other f h]

/-! ## Set-insertion lemmas -/

theorem mem_sinsert {α : Type} [DecidableEq α] {x y : α} {s : List α} :
    x ∈ sinsert y s ↔ x = y ∨ x ∈ s := by
  rw [sinsert]
  split
  · rename_i hy
    constructor
    · exact fun h => Or.inr h
    · rintro (rfl | h)
      · exact hy
      · exact h
  · simp [or_comm]

theorem nodup_sinsert {α : Type} [DecidableEq α] {s : List α} (y : α)
    (h : s.Nodup) : (sinsert y s).Nodup := by
  rw [sinsert]
  split
  · exact h
  · rename_i hy
    simp [List.nodup_append, h, hy]

theorem mem_foldl_sinsert_init {α : Type} [DecidableEq α] {x : α} :
    ∀ (l s : List α), x ∈ s → x ∈ l.foldl (fun a b => sinsert b a) s := by
  intro l
  induction l with
  | nil => intro s h; exact h
  | cons b bs ih =>
    intro s h
    rw [List.foldl_cons]
    exact ih _ (mem_sinsert.mpr (Or.inr h))

theorem mem_foldl_sinsert_of_mem {α : Type} [DecidableEq α] {x : α} :
    ∀ (l s : List α), x ∈ l → x ∈ l.foldl (fun a b => sinsert b a) s := by
  intro l
  induction l with
  | nil => intro s h; cases h
  | cons b bs ih =>
    intro s h
    rw [List.foldl_cons]
    rcases List.mem_cons.mp h with rfl | h2
    · exact mem_foldl_sinsert_init _ _ (mem_sinsert.mpr (Or.inl rfl))
    · exact ih _ h2

theorem nodup_foldl_sinsert {α : Type} [DecidableEq α] :
    ∀ (l s : List α), s.Nodup → (l.foldl (fun a b => sinsert b a) s).Nodup := by
  intro l
  induction l with
  | nil => intro s h; exact h
  | cons b bs ih =>
    intro s h
    rw [List.foldl_cons]
    exact ih _ (nodup_sinsert b h)

/-! ## Monitoring-cycle lemmas -/

theorem mem_amod {α : Type} {k : String} {f : α → α} :
    ∀ {m : List (String × α)} {p : String × α},
      p ∈ amod k f m → p ∈ m ∨ ∃ q, q ∈ m ∧ p = (q.1, f q.2) := by
  intro m
  induction m with
  | nil => intro p h; simp [amod] at h
  | cons q rest ih =>
    obtain ⟨k', v⟩ := q
    intro p h
    rw [amod] at h
    by_cases heq : k' = k
    · rw [if_pos heq] at h
      rcases List.mem_cons.mp h with rfl | h2
      · exact Or.inr ⟨(k', v), List.mem_cons_self _ _, rfl⟩
      · exact Or.inl (List.mem_cons_of_mem _ h2)
    · rw [if_neg heq] at h
      rcases List.mem_cons.mp h with rfl | h2
      · exact Or.inl (List.mem_cons_self _ _)
      · rcases ih h2 with h3 | ⟨q2, hq2, rfl⟩
        · exact Or.inl (List.mem_cons_of_mem _ h3)
        · exact Or.inr ⟨q2, List.mem_cons_of_mem _ hq2, rfl⟩

theorem registerAP_isSome {now : Nat} {ctrl : String} {ap : APInfo} {n : String}
    {m : List (String × APRecord)} (h : (alookup n m).isSome = true) :
    (alookup n (registerAP now ctrl ap m)).isSome = true := by
  rw [registerAP]
  cases halk : alookup ap.name m with
  | none =>
    simp only
    rw [alookup_isSome_amod]
    obtain ⟨v, hv⟩ := Option.isSome_iff_exists.mp h
    rw [alookup_append_some _ hv]
    rfl
  | some r0 =>
    simp only
    rw [alookup_isSome_amod]
    exact h

theorem registerAP_firstSeen {now : Nat} {ctrl : String} {ap : APInfo}
    {m : List (String × APRecord)} (h : ∀ p ∈ m, p.2.first_seen ≤ now) :
    ∀ p ∈ registerAP now ctrl ap m, p.2.first_seen ≤ now := by
  rw [registerAP]
  have hbase : ∀ m1 : List (String × APRecord), (∀ p ∈ m1, p.2.first_seen ≤ now) →
      ∀ p ∈ amod ap.name
        (fun r => { r with last_seen := now
                           status_history := r.status_history ++ [(now, ap.status, ap.progress)] })
        m1, p.2.first_seen ≤ now := by
    intro m1 h1 p hp
    rcases mem_amod hp with h2 | ⟨q, hq, rfl⟩
    · exact h1 p h2
    · exact h1 q hq
  cases halk : alookup ap.name m with
  | none =>
    simp only
    refine hbase _ ?_
    intro p hp
    rcases List.mem_append.mp hp with h2 | h2
    · exact h p h2
    · rcases List.mem_singleton.mp h2 with rfl
      exact Nat.le_refl now
  | some r0 =>
    simp only
    exact hbase _ h

theorem processAPs_cur_iff (now : Nat) (ctrl : String) (x : String) :
    ∀ (apl : List APInfo) (acc : CycleAcc),
      (x ∈ (processAPs now ctrl apl acc).cur ↔
        x ∈ acc.cur ∨ x ∈ apl.map (fun ap => ap.name)) := by
  intro apl
  induction apl with
  | nil => intro acc; simp [processAPs]
  | cons a as ih =>
    intro acc
    rw [processAPs, List.foldl_cons]
    rw [show (List.foldl _ _ as) = processAPs now ctrl as _ from rfl, ih]
    simp only [mem_sinsert, List.map_cons, List.mem_cons]
    tauto

theorem processAPs_isSome (now : Nat) (ctrl : String) (n : String) :
    ∀ (apl : List APInfo) (acc : CycleAcc),
      (alookup n acc.aps).isSome = true →
      (alookup n (processAPs now ctrl apl acc).aps).isSome = true := by
  intro apl
  induction apl with
  | nil => intro acc h; exact h
  | cons a as ih =>
    intro acc h
    rw [processAPs, List.foldl_cons]
    rw [show (List.foldl _ _ as) = processAPs now ctrl as _ from rfl]
    exact ih _ (registerAP_isSome h)

theorem processAPs_firstSeen (now : Nat) (ctrl : String) :
    ∀ (apl : List APInfo) (acc : CycleAcc),
      (∀ p ∈ acc.aps, p.2.first_seen ≤ now) →
      ∀ p ∈ (processAPs now ctrl apl acc).aps, p.2.first_seen ≤ now := by
  intro apl
  induction apl with
  | nil => intro acc h; exact h
  | cons a as ih =>
    intro acc h
    rw [processAPs, List.foldl_cons]
    rw [show (List.foldl _ _ as) = processAPs now ctrl as _ from rfl]
    exact ih _ (registerAP_firstSeen h)

theorem cycleNames_cons (c : CtrlInput) (cs : List CtrlInput) :
    cycleNames (c :: cs)
      = if c.online then c.aps.map (fun ap => ap.name) ++ cycleNames cs else cycleNames cs := by
  rw [cycleNames, List.filter_cons]
  by_cases hon : c.online
  · rw [if_pos hon, if_pos (by simpa using hon), List.flatMap_cons]
    rfl
  · rw [if_neg hon, if_neg (by simpa using hon)]
    rfl

theorem processData_cur_iff (now : Nat) (x : String) :
    ∀ (data : List CtrlInput) (acc : CycleAcc),
      (x ∈ (processData now data acc).cur ↔ x ∈ acc.cur ∨ x ∈ cycleNames data) := by
  intro data
  induction data with
  | nil => intro acc; simp [processData, cycleNames]
  | cons c cs ih =>
    intro acc
    rw [processData, List.foldl_cons]
    rw [show (List.foldl _ _ cs) = processData now cs _ from rfl, cycleNames_cons]
    by_cases hon : c.online
    · rw [if_pos hon, if_pos hon, ih, processAPs_cur_iff]
      simp only [List.mem_append]
      tauto
    · rw [if_neg hon, if_neg hon, ih]

theorem processData_isSome (now : Nat) (n : String) :
    ∀ (data : List CtrlInput) (acc : CycleAcc),
      (alookup n acc.aps).isSome = true →
      (alookup n (processData now data acc).aps).isSome = true := by
  intro data
  induction data with
  | nil => intro acc h; exact h
  | cons c cs ih =>
    intro acc h
    rw [processData, List.foldl_cons]
    rw [show (List.foldl _ _ cs) = processData now cs _ from rfl]
    by_cases hon : c.online
    · rw [if_pos hon]
      exact ih _ (processAPs_isSome now c.name n c.aps _ h)
    · rw [if_neg hon]
      exact ih _ h

theorem processData_firstSeen (now : Nat) :
    ∀ (data : List CtrlInput) (acc : CycleAcc),
      (∀ p ∈ acc.aps, p.2.first_seen ≤ now) →
      ∀ p ∈ (processData now data acc).aps, p.2.first_seen ≤ now := by
  intro data
  induction data with
  | nil => intro acc h; exact h
  | cons c cs ih =>
    intro acc h
    rw [processData, List.foldl_cons]
    rw [show (List.foldl _ _ cs) = processData now cs _ from rfl]
    by_cases hon : c.online
    · rw [if_pos hon]
      exact ih _ (processAPs_firstSeen now c.name c.aps _ h)
    · rw [if_neg hon]
      exact ih _ h

theorem stamp_fold_not_mem {now : Nat} {x : String} :
    ∀ (L : List String) (m : List (String × APRecord)), ¬ x ∈ L →
      alookup x (L.foldl (fun mm n => stampCompleted now n mm) m) = alookup x m := by
  intro L
  induction L with
  | nil => intro m _; rfl
  | cons a as ih =>
    intro m hx
    rw [List.foldl_cons]
    have h1 : ¬ x ∈ as := fun h => hx (List.mem_cons_of_mem _ h)
    have h2 : a ≠ x := fun h => hx (h ▸ List.mem_cons_self _ _)
    rw [ih _ h1, stampCompleted, alookup_amod_other _ h2]

theorem stamp_fold_mem {now : Nat} {x : String} :
    ∀ (L : List String) (m : List (String × APRecord)), x ∈ L →
      alookup x (L.foldl (fun mm n => stampCompleted now n mm) m)
        = (alookup x m).map (fun r => { r with completed_time := some now }) := by
  intro L
  induction L with
  | nil => intro m h; cases h
  | cons a as ih =>
    intro m hx
    rw [List.foldl_cons]
    by_cases hax : a = x
    · subst hax
      by_cases hmem : a ∈ as
      · rw [ih _ hmem, stampCompleted, alookup_amod_self]
        cases alookup a m <;> rfl
      · rw [stamp_fold_not_mem _ _ hmem, stampCompleted, alookup_amod_self]
    · rcases List.mem_cons.mp hx with rfl | h2
      · exact absurd rfl hax
      · rw [show (stampCompleted now a m) = stampCompleted now a m from rfl]
        rw [ih _ h2, stampCompleted, alookup_amod_other _ hax]

/-! ## Progress-tracker lemmas -/

theorem track_controller_data_total_nat (s : ConversionSummary) (d : ControllerData) :
    (track_controller_data s d).total_processed_estimate
      = d.total_processed_estimate + (d.last_current_converting - s.current_converting) := by
  simp only [track_controller_data]
  split_ifs <;> simp_all

theorem track_controller_data_total (s : ConversionSummary) (d : ControllerData) :
    ((track_controller_data s d).total_processed_estimate : ℤ)
      = (d.total_processed_estimate : ℤ)
        + max 0 ((d.last_current_converting : ℤ) - (s.current_converting : ℤ)) := by
  have h := track_controller_data_total_nat s d
  rcases le_total ((d.last_current_converting : ℤ) - (s.current_converting : ℤ)) 0 with h2 | h2
  · rw [max_eq_left h2]
    omega
  · rw [max_eq_right h2]
    omega

theorem track_controller_data_mono (s : ConversionSummary) (d : ControllerData) :
    d.total_processed_estimate ≤ (track_controller_data s d).total_processed_estimate := by
  simp only [track_controller_data]
  split_ifs <;> simp

theorem track_controller_data_last (s : ConversionSummary) (d : ControllerData) :
    (track_controller_data s d).last_current_converting = s.current_converting := by
  simp only [track_controller_data]

theorem track_fold_mono (ss : List ConversionSummary) :
    ∀ d : ControllerData,
      d.total_processed_estimate
        ≤ (ss.foldl (fun a b => track_controller_data b a) d).total_processed_estimate := by
  induction ss with
  | nil => intro d; exact Nat.le_refl _
  | cons s rest ih =>
    intro d
    rw [List.foldl_cons]
    exact Nat.le_trans (track_controller_data_mono s d) (ih _)

theorem track_conversion_progress_snd (name : String) (s : ConversionSummary)
    (m : List (String × ControllerData)) :
    (track_conversion_progress name s m).2
      = track_controller_data s ((alookup name m).getD initControllerData) := by
  rw [track_conversion_progress]
  cases h : alookup name m with
  | none =>
    simp only
    rw [alookup_amod_self]
    rw [alookup_append_none h]
    simp [alookup]
  | some d =>
    simp only
    rw [alookup_amod_self, h]
    rfl

/-! ## Cleanup-workflow lemmas -/

theorem phase1_fold_total (env : CleanupEnv) :
    ∀ (cs : List ControllerRow) (acc : Nat × List String),
      (cs.foldl (phase1Step env) acc).1 + (cs.foldl (phase1Step env) acc).2.length
        = acc.1 + acc.2.length + cs.length := by
  intro cs
  induction cs with
  | nil => intro acc; simp
  | cons c rest ih =>
    intro acc
    rw [List.foldl_cons, ih]
    rw [phase1Step]
    cases env.hostDev c.ip_address with
    | none => simp; omega
    | some dev => simp [phase1Host]; omega

/-! ## Prepare-workflow lemmas -/

theorem finishPrep_trace {dev : Device} {tr : List String} {np cn : String} {b : Bool}
    (h : (finishPrep dev tr np cn b).target.isSome = true) :
    (finishPrep dev tr np cn b).trace
      = tr ++ ["no active-ap-lb", "no redundancy", "exit", "exit", "write memory"] := by
  rw [finishPrep] at h ⊢
  cases b with
  | false => simp at h
  | true =>
    rw [if_neg (by simp)] at h ⊢
    simp only [send]
    simp [List.append_assoc]

theorem prep_shape (dev : Device) (inp : PrepInput) :
    (∃ tr cn b, prep_migration_ssh dev inp = finishPrep dev tr inp.nodepath cn b)
      ∨ (prep_migration_ssh dev inp).target = none := by
  simp only [prep_migration_ssh]
  split
  · split
    · split
      · split
        · exact Or.inl ⟨_, _, _, rfl⟩
        · exact Or.inr rfl
      · exact Or.inr rfl
    · split
      · exact Or.inl ⟨_, _, _, rfl⟩
      · exact Or.inr rfl
  · exact Or.inl ⟨_, _, _, rfl⟩

/-! ## AP-group selection lemmas -/

theorem mem_availableGroups_not_mem {db : MigrationDB} {cs : List ControllerRow}
    {groups : List String} {g : String} (h : g ∈ availableGroups db cs groups) :
    ¬ g ∈ groups := by
  simp only [availableGroups] at h
  have h2 := List.mem_filter.mp h
  simpa using h2.2

theorem getElem?_availableGroups_not_mem {db : MigrationDB} {cs : List ControllerRow}
    {groups : List String} {i : Nat} {g : String}
    (h : (availableGroups db cs groups)[i]? = some g) : ¬ g ∈ groups :=
  mem_availableGroups_not_mem (List.getElem?_mem h)

theorem nodup_append_singleton {g : String} {groups : List String}
    (hnd : groups.Nodup) (hg : ¬ g ∈ groups) : (groups ++ [g]).Nodup := by
  refine List.Nodup.append hnd (List.nodup_singleton g) ?_
  intro a ha hag
  rcases List.mem_singleton.mp hag with rfl
  exact hg ha

/-! ## Claim theorems -/

/-- **C4.** For every controller and every sequence of monitoring cycles,
the total-processed estimate maintained by the progress tracker is
non-decreasing across cycles, and on each cycle it increases by exactly
`max 0 (previous cycle's current-converting − this cycle's
current-converting)`; the stored counter is the previous cycle's value, and
the map-level tracker applies exactly this per-entry update. -/
theorem track_estimate_nondecreasing_exact (s : ConversionSummary) (d : ControllerData) :
    ((track_controller_data s d).total_processed_estimate : ℤ)
      = (d.total_processed_estimate : ℤ)
        + max 0 ((d.last_current_converting : ℤ) - (s.current_converting : ℤ))
  ∧ (track_controller_data s d).last_current_converting = s.current_converting
  ∧ (∀ ss : List ConversionSummary,
      d.total_processed_estimate
        ≤ (ss.foldl (fun a b => track_controller_data b a) d).total_processed_estimate)
  ∧ (∀ (name : String) (m : List (String × ControllerData)),
      (track_conversion_progress name s m).2
        = track_controller_data s ((alookup name m).getD initControllerData)) :=
  ⟨track_controller_data_total s d, track_controller_data_last s d,
   fun ss => track_fold_mono ss d,
   fun name m => track_conversion_progress_snd name s m⟩

/-- **C7.** In the per-host Phase 1 body of the cleanup workflow, for each
of the clear-all and cancel commands: exactly one follow-up `y` is sent
iff the captured response contains the fixed confirmation phrase (never
twice for one response), and the host's step outcome is success whether or
not any prompt appeared. -/
theorem phase1_prompt_handling (dev : Device) :
    ∃ p1 p2 : Bool,
      p1 = strContains (dev ["ap convert clear-all"]) confirmPrompt
      ∧ p2 = strContains (dev (["ap convert clear-all"]
            ++ (if p1 then ["y"] else []) ++ ["ap convert cancel"])) confirmPrompt
      ∧ (phase1Host dev).1
          = ["ap convert clear-all"] ++ (if p1 then ["y"] else [])
            ++ ["ap convert cancel"] ++ (if p2 then ["y"] else [])
      ∧ (phase1Host dev).1.count "y"
          = (if p1 then 1 else 0) + (if p2 then 1 else 0)
      ∧ (phase1Host dev).2 = true := by
  refine ⟨_, _, rfl, rfl, ?_, ?_, rfl⟩
  · by_cases hp1 : strContains (dev ["ap convert clear-all"]) confirmPrompt
    · simp only [phase1Host, send, hp1, if_true, List.nil_append]
      by_cases hp2 : strContains
          (dev ["ap convert clear-all", "y", "ap convert cancel"]) confirmPrompt <;>
        simp [hp2]
    · simp only [phase1Host, send, hp1, if_false, List.nil_append]
      by_cases hp2 : strContains
          (dev ["ap convert clear-all", "ap convert cancel"]) confirmPrompt <;>
        simp [hp2]
  · by_cases hp1 : strContains (dev ["ap convert clear-all"]) confirmPrompt
    · simp only [phase1Host, send, hp1, if_true, List.nil_append]
      by_cases hp2 : strContains
          (dev ["ap convert clear-all", "y", "ap convert cancel"]) confirmPrompt <;>
        simp [hp2, List.count_cons]
    · simp only [phase1Host, send, hp1, if_false, List.nil_append]
      by_cases hp2 : strContains
          (dev ["ap convert clear-all", "ap convert cancel"]) confirmPrompt <;>
        simp [hp2, List.count_cons]

/-- **C3.** At the end of every cleanup-and-restore run, the migration
target and the accumulated AP-group selection are cleared iff at least one
controller's Phase 1 cleanup succeeded, and this — like the success count —
is independent of the conductor environment Phase 2 uses. -/
theorem cleanup_clears_selection_state (db : MigrationDB) (env : CleanupEnv)
    (confirm : Bool) (st : CleanupState) :
    ((cleanup_ap_convert db env confirm st).state'
        = if 0 < (cleanup_ap_convert db env confirm st).successCount
          then { selected_ap_groups := [], prep_migration_target := none }
          else st)
  ∧ (∀ (mc : Bool) (md : Device),
      (cleanup_ap_convert db { hostDev := env.hostDev, mmConnects := mc, mmDev := md }
          confirm st).state'
        = (cleanup_ap_convert db env confirm st).state'
      ∧ (cleanup_ap_convert db { hostDev := env.hostDev, mmConnects := mc, mmDev := md }
          confirm st).successCount
        = (cleanup_ap_convert db env confirm st).successCount) := by
  constructor
  · simp only [cleanup_ap_convert]
    split_ifs <;> simp_all
  · intro mc md
    have hstep : phase1Step { hostDev := env.hostDev, mmConnects := mc, mmDev := md }
        = phase1Step env := by
      funext acc c
      rfl
    constructor <;>
      simp only [cleanup_ap_convert, hstep] <;>
      split_ifs <;> rfl

/-- **C2.** When a cleanup-and-restore run reaches Phase 2, the restoration
target list is exactly the singleton with the recorded migration target's
`(cluster, nodepath)` pair if one is set, and otherwise exactly the full
`get_all_clusters_with_nodepaths` result; the explicit full-fleet warning
is issued exactly when no migration target is set. -/
theorem cleanup_restoration_targets (db : MigrationDB) (env : CleanupEnv)
    (st : CleanupState) (h : db.controllers ≠ []) :
    (cleanup_ap_convert db env true st).restorationTargets
      = some (match st.prep_migration_target with
              | some t => [(t.2, t.1)]
              | none => get_all_clusters_with_nodepaths db)
  ∧ (cleanup_ap_convert db env true st).fullRestoreWarning
      = st.prep_migration_target.isNone := by
  have hne : (get_all_controllers db).isEmpty = false := by
    rw [get_all_controllers]
    cases hc : db.controllers with
    | nil => exact absurd hc h
    | cons a l => rfl
  cases hpt : st.prep_migration_target with
  | none =>
    constructor <;> simp [cleanup_ap_convert, hne, hpt]
  | some t =>
    obtain ⟨np, cn⟩ := t
    constructor <;> simp [cleanup_ap_convert, hne, hpt]

/-- Witness for C2: on the one-controller fleet with a recorded migration
target, Phase 2 restores exactly that `(cluster, nodepath)` pair and no
full-fleet warning is issued. -/
theorem cleanup_restoration_targets_witness :
    (cleanup_ap_convert dbOne envOne true cleanupStExample).restorationTargets
      = some [("clusterA", "/md/1")]
  ∧ (cleanup_ap_convert dbOne envOne true cleanupStExample).fullRestoreWarning = false := by
  have h := cleanup_restoration_targets dbOne envOne cleanupStExample (by decide)
  simpa [cleanupStExample] using h

/-- **C8 counterexample.** The AP-convert init workflow does not return a
`(successCount, total, failedHostNames)` summary: two runs on the
two-controller fleet whose spec-side summaries differ — `(1, 2, ["host2"])`
versus `(2, 2, [])` — return the identical value `true`, so the value
returned to the caller cannot carry the summary, and the concluding report
of a run with a failed host names no failed hosts. -/
theorem workflows_summary_counterexample :
    (execute_ap_convert_init (some "c1") dbTwo envInitA).retVal
      = (execute_ap_convert_init (some "c1") dbTwo envInitB).retVal
  ∧ initSpecSummary (some "c1") dbTwo envInitA = (1, 2, ["host2"])
  ∧ initSpecSummary (some "c1") dbTwo envInitB = (2, 2, [])
  ∧ (execute_ap_convert_init (some "c1") dbTwo envInitA).successCount
      ≠ (execute_ap_convert_init (some "c1") dbTwo envInitB).successCount := by
  decide

/-- **C8 (amended).** Every orchestration workflow returns a boolean
success flag equal to `successCount > 0` — not a summary triple — and the
success count versus total is reported; only the cleanup workflow tracks
failed host names, whose count complements its success count. -/
theorem workflows_return_flag_and_counts :
    (∀ (s : Option String) (db : MigrationDB) (env : String → Option Device),
        (execute_ap_convert_init s db env).retVal
          = decide (0 < (execute_ap_convert_init s db env).successCount))
  ∧ (∀ (s : Option String) (db : MigrationDB) (env : String → Option Device)
        (groups : List String) (inp : AddInput),
        (select_and_add_ap_group s db env groups inp).retVal
          = decide (0 < (select_and_add_ap_group s db env groups inp).successCount))
  ∧ (∀ (db : MigrationDB) (env : CleanupEnv) (confirm : Bool) (st : CleanupState),
        (cleanup_ap_convert db env confirm st).retVal
          = decide (0 < (cleanup_ap_convert db env confirm st).successCount))
  ∧ (∀ (db : MigrationDB) (env : CleanupEnv) (confirm : Bool) (st : CleanupState),
        (cleanup_ap_convert db env confirm st).successCount
          + (cleanup_ap_convert db env confirm st).failedControllers.length
        = (cleanup_ap_convert db env confirm st).total) := by
  refine ⟨?_, ?_, ?_, ?_⟩
  · intro s db env
    cases s with
    | none => rfl
    | some cn =>
      simp only [execute_ap_convert_init]
      split_ifs <;> rfl
  · intro s db env groups inp
    cases s with
    | none => rfl
    | some cn =>
      simp only [select_and_add_ap_group]
      split_ifs <;> (try rfl) <;> split <;> rfl
  · intro db env confirm st
    simp only [cleanup_ap_convert]
    split_ifs <;> rfl
  · intro db env confirm st
    simp only [cleanup_ap_convert]
    split_ifs <;>
      first
        | rfl
        | (have h := phase1_fold_total env (get_all_controllers db) (0, [])
           simpa using h)

/-- **C6 counterexample.** On a confirmed, fallback-free prepare run, the
disable-load-balancing command `no active-ap-lb` is issued strictly before
the disable-redundancy command `no redundancy`, contradicting the claimed
redundancy-first order. -/
theorem prep_disable_order_counterexample :
    (prep_migration_ssh prepDevOk prepInputOk).trace
      = ["change-config-node /md/host1", "configure terminal",
         "lc-cluster group-profile c1", "no active-ap-lb", "no redundancy",
         "exit", "exit", "write memory"]
  ∧ (prep_migration_ssh prepDevOk prepInputOk).trace.indexOf "no active-ap-lb"
      < (prep_migration_ssh prepDevOk prepInputOk).trace.indexOf "no redundancy"
  ∧ (prep_migration_ssh prepDevOk prepInputOk).target = some ("/md/host1", "c1") := by
  decide

/-- **C6 (amended).** In the prepare workflow, after profile-context entry
is confirmed, the disable-load-balancing command is issued first and the
disable-redundancy command second, followed by the context exits and the
configuration save: every run that records a migration target ends with
exactly this command suffix. -/
theorem prep_disable_order (dev : Device) (inp : PrepInput)
    (h : (prep_migration_ssh dev inp).target.isSome = true) :
    ∃ pre, (prep_migration_ssh dev inp).trace
      = pre ++ ["no active-ap-lb", "no redundancy", "exit", "exit", "write memory"] := by
  rcases prep_shape dev inp with ⟨tr, cn, b, heq⟩ | hnone
  · rw [heq] at h ⊢
    exact ⟨tr, finishPrep_trace h⟩
  · rw [hnone] at h
    cases h

/-- Witness for C6 (amended): the confirmed run against `prepDevOk` ends
with the load-balancing/redundancy/exit/exit/save suffix. -/
theorem prep_disable_order_witness :
    (prep_migration_ssh prepDevOk prepInputOk).trace
      = ["change-config-node /md/host1", "configure terminal", "lc-cluster group-profile c1"]
        ++ ["no active-ap-lb", "no redundancy", "exit", "exit", "write memory"] := by
  obtain ⟨pre, hpre⟩ := prep_disable_order prepDevOk prepInputOk (by decide)
  have hpre2 : pre ++ ["no active-ap-lb", "no redundancy", "exit", "exit", "write memory"]
      = ["change-config-node /md/host1", "configure terminal", "lc-cluster group-profile c1"]
        ++ ["no active-ap-lb", "no redundancy", "exit", "exit", "write memory"] := by
    rw [← hpre]
    decide
  rw [hpre, hpre2]

/-- **C1.** (Code bug.)  When the response to entering the original cluster
profile contains both an accepted context marker and an error marker, the
fallback runs with the `in_cluster_context` flag still set; an alternate
name typed at fallback choice 2 is then recorded as the migration target
even though its own profile-entry response carried no accepted marker —
i.e. the recorded name is not the one whose profile-context entry was
confirmed. -/
theorem prep_records_unconfirmed_fallback_name :
    (prep_migration_ssh prepDevBug prepInputBug).target = some ("/md", "other")
  ∧ hasContextMarker (prepDevBug ["change-config-node /md", "configure terminal",
      profileCmd "orig", profileCmd "other"]) = false
  ∧ hasContextMarker (prepDevBug ["change-config-node /md", "configure terminal",
      profileCmd "orig"]) = true
  ∧ strContains (prepDevBug ["change-config-node /md", "configure terminal",
      profileCmd "orig"]) "Error:" = true := by
  decide

/-- **C9.** The accumulated AP-group selection never holds a duplicate:
the add workflow offers only groups not already selected, appends the
chosen group at most once and only when the add command succeeded on at
least one controller, and cluster selection resets the list whenever the
chosen cluster differs from the current one. -/
theorem ap_group_selection_invariant (s : Option String) (db : MigrationDB)
    (env : String → Option Device) (groups : List String) (inp : AddInput)
    (old : Option String) (newC : String) (hnd : groups.Nodup) :
    (∀ g ∈ (select_and_add_ap_group s db env groups inp).offered, ¬ g ∈ groups)
  ∧ (select_and_add_ap_group s db env groups inp).groups'.Nodup
  ∧ ((select_and_add_ap_group s db env groups inp).groups' = groups
      ∨ ∃ g, ¬ g ∈ groups
          ∧ (select_and_add_ap_group s db env groups inp).groups' = groups ++ [g]
          ∧ 0 < (select_and_add_ap_group s db env groups inp).successCount)
  ∧ (old ≠ some newC → select_cluster_update old newC groups = []) := by
  refine ⟨?_, ?_, ?_, ?_⟩
  · cases s with
    | none => intro g hg; simp [select_and_add_ap_group] at hg
    | some cn =>
      simp only [select_and_add_ap_group]
      split_ifs <;>
        first
          | (split <;> intro g hg <;> exact mem_availableGroups_not_mem hg)
          | (intro g hg; exact mem_availableGroups_not_mem hg)
          | (intro g hg; exact absurd hg (by simp))
  · cases s with
    | none => exact hnd
    | some cn =>
      simp only [select_and_add_ap_group]
      split_ifs <;> try exact hnd
      all_goals split
      all_goals try exact hnd
      all_goals rename_i g heq
      all_goals split_ifs with hk
      all_goals try exact hnd
      all_goals exact nodup_append_singleton hnd (getElem?_availableGroups_not_mem heq)
  · cases s with
    | none => exact Or.inl rfl
    | some cn =>
      simp only [select_and_add_ap_group]
      split_ifs <;> try exact Or.inl rfl
      all_goals split
      all_goals try exact Or.inl rfl
      all_goals rename_i g heq
      all_goals split_ifs with hk
      all_goals try exact Or.inl rfl
      all_goals exact Or.inr ⟨g, getElem?_availableGroups_not_mem heq, rfl, hk⟩
  · intro h
    simp [select_cluster_update, h]

/-- Witness for C9: adding a group on the one-controller fleet keeps the
selection duplicate-free, and selecting a different cluster resets the
list. -/
theorem ap_group_selection_invariant_witness :
    (select_and_add_ap_group (some "clusterA") dbOne (fun _ => some plainDev) []
        { selection := 1, confirm := true }).groups'.Nodup
  ∧ select_cluster_update (some "clusterA") "clusterB" ["grp1"] = [] := by
  have h := ap_group_selection_invariant (some "clusterA") dbOne (fun _ => some plainDev)
    [] { selection := 1, confirm := true } (some "clusterA") "clusterB" (by decide)
  have h4 := ap_group_selection_invariant (some "clusterA") dbOne
    (fun _ => some plainDev) ["grp1"] { selection := 1, confirm := true }
    (some "clusterA") "clusterB" (by decide)
  exact ⟨h.2.1, h4.2.2.2 (by decide)⟩

/-- **C10.** Within one monitoring run, an AP name once in the completed
set is never removed by a later cycle: it stays completed, and if it
reappears in that cycle's currently-converting sets it is also counted as
converting again, so the completed set is monotone non-decreasing. -/
theorem monitor_completed_monotone (st : MonitorState) (now : Nat)
    (data : List CtrlInput) (x : String) (hc : x ∈ st.completed_aps) :
    x ∈ (monitorCycle now data st).completed_aps
  ∧ (x ∈ cycleNames data → x ∈ (monitorCycle now data st).previous_converting) := by
  constructor
  · simp only [monitorCycle]
    exact mem_foldl_sinsert_init _ _ hc
  · intro hx
    simp only [monitorCycle]
    exact (processData_cur_iff now x data _).mpr (Or.inr hx)

/-- Witness for C10: with `ap1` already completed and reported converting
again by `MC1`, after the cycle it is both still completed and counted as
converting. -/
theorem monitor_completed_monotone_witness :
    "ap1" ∈ (monitorCycle 2 [ctrlInputReappear] monStDone).completed_aps
  ∧ "ap1" ∈ (monitorCycle 2 [ctrlInputReappear] monStDone).previous_converting := by
  have h := monitor_completed_monotone monStDone 2 [ctrlInputReappear] "ap1" (by decide)
  exact ⟨h.1, h.2 (by decide)⟩

/-- **C5.** An AP name present in one cycle's currently-converting set and
absent from the next cycle's set is put in the completed set exactly once
and its registry entry is stamped with the cycle's completion time, which
is at least its recorded first-seen time.  (The hypotheses are the run
invariants: every previously-converting name is registered, every recorded
first-seen time is at most the current cycle time, and the completed set —
a Python `set` — has no duplicates.) -/
theorem monitor_completion_stamped (st : MonitorState) (now : Nat)
    (data : List CtrlInput) (n : String)
    (hprev : n ∈ st.previous_converting)
    (habs : ¬ n ∈ cycleNames data)
    (hreg : ∀ x ∈ st.previous_converting, (alookup x st.all_time_aps).isSome = true)
    (hfs : ∀ p ∈ st.all_time_aps, p.2.first_seen ≤ now)
    (hnd : st.completed_aps.Nodup) :
    (monitorCycle now data st).completed_aps.count n = 1
  ∧ ∃ r : APRecord,
      alookup n (monitorCycle now data st).all_time_aps = some r
      ∧ r.completed_time = some now
      ∧ r.first_seen ≤ now := by
  have hncur : ¬ n ∈ (processData now data
      { aps := st.all_time_aps, ctrls := st.ctrl_data, cur := [] }).cur := by
    intro hmem
    rcases (processData_cur_iff now n data _).mp hmem with h | h
    · simp at h
    · exact habs h
  have hnnew : n ∈ st.previous_converting.filter
      (fun x => ¬ x ∈ (processData now data
        { aps := st.all_time_aps, ctrls := st.ctrl_data, cur := [] }).cur) := by
    rw [List.mem_filter]
    exact ⟨hprev, by simpa using hncur⟩
  constructor
  · simp only [monitorCycle]
    exact List.count_eq_one_of_mem (nodup_foldl_sinsert _ _ hnd)
      (mem_foldl_sinsert_of_mem _ _ hnnew)
  · simp only [monitorCycle]
    have h1 : (alookup n (processData now data
        { aps := st.all_time_aps, ctrls := st.ctrl_data, cur := [] }).aps).isSome = true :=
      processData_isSome now n data _ (hreg n hprev)
    obtain ⟨r1, hr1⟩ := Option.isSome_iff_exists.mp h1
    have hfs1 : r1.first_seen ≤ now :=
      processData_firstSeen now data _ hfs (n, r1) (alookup_mem hr1)
    refine ⟨{ r1 with completed_time := some now }, ?_, rfl, hfs1⟩
    rw [stamp_fold_mem _ _ hnnew, hr1]
    rfl

/-- Witness for C5: `ap1`, converting in the previous cycle and absent from
an empty cycle, is completed exactly once and stamped with time 2, at least
its first-seen time 1. -/
theorem monitor_completion_stamped_witness :
    (monitorCycle 2 [] monStExample).completed_aps.count "ap1" = 1
  ∧ alookup "ap1" (monitorCycle 2 [] monStExample).all_time_aps
      = some { first_seen := 1, last_seen := 1, controller := "MC1",
               mac := "aa:bb:cc:dd:ee:ff", status_history := [(1, "IN_PROGRESS", "")],
               completed_time := some 2 } :=
  ⟨(monitor_completion_stamped monStExample 2 [] "ap1"
      (by decide) (by decide) (by decide) (by decide) (by decide)).1, by decide⟩
